import Mathlib

/-!
Verification of the S3Wrapper repository: a shallow embedding of
`s3wrapper/S3Auth.py` and `s3wrapper/S3Wrapper.py` (and, where the two
duplicated package variants differ, also of `S3Wrapper/S3Auth.py`),
together with theorems settling the specification claims.

Bytes are naturals below 256; 32-bit machine words are naturals reduced
modulo 2 ^ 32.
-/

namespace S3V

/-! ## SHA-256 (model of hashlib.sha256(...).hexdigest() on byte strings) -/

/-- Reduce a natural to a 32-bit word. -/
def w32 (n : Nat) : Nat := n % 4294967296

/-- Rotate a 32-bit word right by n positions (naturals reduced mod 2 ^ 32). -/
def rotr32 (n x : Nat) : Nat := ((x >>> n) ||| (x <<< (32 - n))) % 4294967296

/-- Bitwise complement of a 32-bit word. -/
def not32 (x : Nat) : Nat := x ^^^ 4294967295

def bsig0 (x : Nat) : Nat := rotr32 2 x ^^^ rotr32 13 x ^^^ rotr32 22 x

def bsig1 (x : Nat) : Nat := rotr32 6 x ^^^ rotr32 11 x ^^^ rotr32 25 x

def ssig0 (x : Nat) : Nat := rotr32 7 x ^^^ rotr32 18 x ^^^ (x >>> 3)

def ssig1 (x : Nat) : Nat := rotr32 17 x ^^^ rotr32 19 x ^^^ (x >>> 10)

def ch32 (x y z : Nat) : Nat := (x &&& y) ^^^ (not32 x &&& z)

def maj32 (x y z : Nat) : Nat := (x &&& y) ^^^ (x &&& z) ^^^ (y &&& z)

/-- The 64 SHA-256 round constants of FIPS 180-4, written in decimal. -/
def sha256K : List Nat :=
  [1116352408, 1899447441, 3049323471, 3921009573, 961987163, 1508970993, 2453635748,
   2870763221, 3624381080, 310598401, 607225278, 1426881987, 1925078388, 2162078206,
   2614888103, 3248222580, 3835390401, 4022224774, 264347078, 604807628, 770255983,
   1249150122, 1555081692, 1996064986, 2554220882, 2821834349, 2952996808, 3210313671,
   3336571891, 3584528711, 113926993, 338241895, 666307205, 773529912, 1294757372,
   1396182291, 1695183700, 1986661051, 2177026350, 2456956037, 2730485921, 2820302411,
   3259730800, 3345764771, 3516065817, 3600352804, 4094571909, 275423344, 430227734,
   506948616, 659060556, 883997877, 958139571, 1322822218, 1537002063, 1747873779,
   1955562222, 2024104815, 2227730452, 2361852424, 2428436474, 2756734187, 3204031479,
   3329325298]

/-- The eight words of the SHA-256 initial hash value, in decimal. -/
def sha256H0 : List Nat :=
  [1779033703, 3144134277, 1013904242, 2773480762, 1359893119, 2600822924, 528734635,
   1541459225]

/-- A natural as 8 big-endian bytes. -/
def bigEndian8 (n : Nat) : List Nat :=
  (List.range 8).map (fun i => (n >>> (8 * (7 - i))) % 256)

/-- SHA-256 padding: append 0x80, zeros to 56 mod 64, then the bit length. -/
def sha256pad (msg : List Nat) : List Nat :=
  msg ++ [0x80] ++ List.replicate ((119 - msg.length % 64) % 64) 0 ++ bigEndian8 (msg.length * 8)

/-- Group bytes into big-endian 32-bit words. -/
def toWords : List Nat → List Nat
  | a :: b :: c :: d :: rest => (((a * 256 + b) * 256 + c) * 256 + d) :: toWords rest
  | _ => []

/-- One step of the message-schedule extension: the window holds the last
16 words, oldest first. -/
def schedStep (win : List Nat) : Nat :=
  match win with
  | [a, b, _, _, _, _, _, _, _, j, _, _, _, _, o, _] => w32 (ssig1 o + j + ssig0 b + a)
  | _ => 0

/-- Extend the message schedule by `n` further words. -/
def schedExtend : Nat → List Nat → List Nat
  | 0, _ => []
  | n + 1, win =>
    let x := schedStep win
    x :: schedExtend n (win.tail ++ [x])

/-- The full 64-word message schedule of one block. -/
def sha256schedule (block : List Nat) : List Nat :=
  let ws := toWords block
  ws ++ schedExtend 48 ws

/-- One SHA-256 compression round on the 8-word working state. -/
def sha256round (st : List Nat) (ki wi : Nat) : List Nat :=
  match st with
  | [a, b, c, d, e, f, g, h] =>
    let t1 := w32 (h + bsig1 e + ch32 e f g + ki + wi)
    let t2 := w32 (bsig0 a + maj32 a b c)
    [w32 (t1 + t2), a, b, c, w32 (d + t1), e, f, g]
  | other => other

/-- Process one 64-byte block into the running hash value. -/
def sha256block (h : List Nat) (block : List Nat) : List Nat :=
  let st := (List.zip sha256K (sha256schedule block)).foldl
    (fun s p => sha256round s p.1 p.2) h
  (List.zip h st).map (fun p => w32 (p.1 + p.2))

/-- Split a list into 64-element chunks, with a fuel argument (the list
length suffices) keeping the recursion structural. -/
def chunks64Go : Nat → List Nat → List (List Nat)
  | 0, _ => []
  | _ + 1, [] => []
  | n + 1, a :: rest => ((a :: rest).take 64) :: chunks64Go n ((a :: rest).drop 64)

/-- Split a list into 64-element chunks. -/
def chunks64 (l : List Nat) : List (List Nat) :=
  chunks64Go l.length l

/-- The eight 32-bit words of the SHA-256 digest of a byte string. -/
def sha256words (msg : List Nat) : List Nat :=
  (chunks64 (sha256pad msg)).foldl sha256block sha256H0

/-- A hex digit character. -/
def hexDigit (n : Nat) : Char :=
  "0123456789abcdef".data.getD n '0'

/-- A 32-bit word as 8 lowercase hex characters. -/
def hexWord32 (n : Nat) : List Char :=
  (List.range 8).map (fun i => hexDigit ((n >>> (4 * (7 - i))) &&& 15))

/-- Model of hashlib.sha256(msg).hexdigest(): the lowercase hex encoding of
the SHA-256 digest. -/
def sha256hex (msg : List Nat) : String :=
  String.mk (((sha256words msg).map hexWord32).flatten)

/-! ## The SDK boundary

boto3 raises `ClientError` for every non-2xx service response (with an error
code such as 404 / NoSuchKey / AccessDenied); every other failure (connection
errors, programming errors) is some other exception type. The wrapper code
distinguishes exactly these two classes in its except clauses. -/

/-- An exception raised by a call on the boto3 client: either
`botocore ClientError` carrying the service error code, or any other
exception carrying a message. -/
inductive SdkError where
  | clientError (code : String)
  | otherError (msg : String)
deriving Repr, DecidableEq

/-- A stored S3 object: its key, body bytes, user metadata and a
last-modified stamp. -/
structure S3Obj where
  key : String
  body : List Nat
  meta : List (String × String)
  lastModified : Nat
deriving Repr, DecidableEq

/-- The response of head_object, as the wrapper reads it:
ContentLength, Metadata and LastModified. -/
structure Headers where
  contentLength : Nat
  meta : List (String × String)
  lastModified : Nat
deriving Repr, DecidableEq

/-- The world a stubbed client acts on: the bucket contents in listing
order, injectable faults for each endpoint, the queue of operator inputs to
interactive prompts, and instrumentation counters (prompts asked, calls made
to the copy endpoint). -/
structure World where
  store : List S3Obj
  headFault : Option SdkError
  getFault : Option SdkError
  downloadFault : Option SdkError
  copyFault : Option SdkError
  promptInputs : List String
  promptsAsked : Nat
  copyCalls : Nat
deriving Repr, DecidableEq

/-- A local filesystem: path to byte contents. -/
abbrev FS : Type := List (String × List Nat)

/-- Look up a local file. -/
def fsLookup (fs : FS) (path : String) : Option (List Nat) :=
  match fs with
  | [] => none
  | e :: rest => if e.1 = path then some e.2 else fsLookup rest path

/-- Write a local file (overwriting any previous entry for the path). -/
def fsWrite (fs : FS) (path : String) (b : List Nat) : FS :=
  (path, b) :: fs.filter (fun e => e.1 ≠ path)

/-- The first stored object with the given key. -/
def findObj : List S3Obj → String → Option S3Obj
  | [], _ => none
  | o :: rest, k => if o.key = k then some o else findObj rest k

/-- Remove every object with the given key. -/
def removeKey : List S3Obj → String → List S3Obj
  | [], _ => []
  | o :: rest, k => if o.key = k then removeKey rest k else o :: removeKey rest k

/-- Replace the metadata of every object with the given key. -/
def replaceMeta : List S3Obj → String → List (String × String) → List S3Obj
  | [], _, _ => []
  | o :: rest, k, m =>
    (if o.key = k then { o with meta := m } else o) :: replaceMeta rest k m

/-- Store an object under a key, overwriting any existing object there. -/
def putObj (s : List S3Obj) (k : String) (b : List Nat) (m : List (String × String)) :
    List S3Obj :=
  ⟨k, b, m, 0⟩ :: removeKey s k

/-- Stubbed s3.head_object: an injected fault if any, otherwise the headers
of the stored object, otherwise ClientError 404. -/
def headObject (w : World) (key : String) : Except SdkError Headers :=
  match w.headFault with
  | some e => .error e
  | none =>
    match findObj w.store key with
    | some o => .ok ⟨o.body.length, o.meta, o.lastModified⟩
    | none => .error (.clientError "404")

/-- Stubbed s3.get_object(...)[Body].read(): an injected fault if any,
otherwise the stored body, otherwise ClientError NoSuchKey. -/
def getObjectBody (w : World) (key : String) : Except SdkError (List Nat) :=
  match w.getFault with
  | some e => .error e
  | none =>
    match findObj w.store key with
    | some o => .ok o.body
    | none => .error (.clientError "NoSuchKey")

/-- Stubbed s3.download_file: an injected fault if any; otherwise writes the
stored body to the destination path, raising ClientError 404 when the key is
absent (nothing is written in any failure case). -/
def downloadFile (w : World) (key : String) (fs : FS) (path : String) :
    Except SdkError FS :=
  match w.downloadFault with
  | some e => .error e
  | none =>
    match findObj w.store key with
    | some o => .ok (fsWrite fs path o.body)
    | none => .error (.clientError "404")

/-- Stubbed s3.copy_object with MetadataDirective REPLACE onto the same key:
the call is counted, then either the injected fault is raised or the stored
metadata of the key is replaced wholesale. -/
def copyObject (w : World) (key : String) (m : List (String × String)) :
    World × Option SdkError :=
  let w1 := { w with copyCalls := w.copyCalls + 1 }
  match w.copyFault with
  | some e => (w1, some e)
  | none => ({ w1 with store := replaceMeta w1.store key m }, none)

/-- Consume one operator input for a free-form Prompt.ask (no choices): the
answer is returned but the delete code discards it. -/
def askFree (w : World) : String × World :=
  ((w.promptInputs.headD ""),
   { w with promptInputs := w.promptInputs.tail, promptsAsked := w.promptsAsked + 1 })

/-- Consume one operator input for Prompt.ask with choices yes/no and a
default: a blank input yields the default. -/
def askChoice (w : World) (dflt : String) : String × World :=
  let raw := w.promptInputs.headD ""
  ((if raw = "" then dflt else raw),
   { w with promptInputs := w.promptInputs.tail, promptsAsked := w.promptsAsked + 1 })

/-! ## The wrapper operations (s3wrapper/S3Wrapper.py) -/

/-- S3Wrapper.get_headers: the head_object response on success; the False
sentinel (modelled as none) when ClientError is raised, and the same
sentinel for any other exception. -/
def get_headers (w : World) (key : String) : Option Headers :=
  match headObject w key with
  | .ok h => some h
  | .error (.clientError _) => none
  | .error (.otherError _) => none

/-- S3Wrapper.get_size: ContentLength of the headers, or 0 when get_headers
returned the False sentinel. -/
def get_size (w : World) (key : String) : Nat :=
  match get_headers w key with
  | some h => h.contentLength
  | none => 0

/-- S3Wrapper.get_metadata: the Metadata field of the headers, or None. -/
def get_metadata (w : World) (key : String) : Option (List (String × String)) :=
  match get_headers w key with
  | some h => some h.meta
  | none => none

/-- S3Wrapper.get_objects: all object keys of the bucket in listing order
(pagination concatenation collapsed into the stored order). -/
def get_objects (w : World) : List String :=
  w.store.map (fun o => o.key)

/-- S3Wrapper.get_files: the objects filtered to non-directory-marker keys,
and additionally to those starting with s3_dir when it is a string. -/
def get_files (w : World) (s3_dir : Option String) : List String :=
  match s3_dir with
  | some d => (get_objects w).filter (fun f => f.startsWith d && !(f.endsWith "/"))
  | none => (get_objects w).filter (fun f => !(f.endsWith "/"))

/-- S3Wrapper.download: True with the written filesystem on success; catches
ClientError (printing a not-found notice) and returns False leaving the
filesystem as it was; any other exception propagates. -/
def download (w : World) (key : String) (fs : FS) (path : String) :
    Except SdkError (Bool × FS) :=
  match downloadFile w key fs path with
  | .ok fs2 => .ok (true, fs2)
  | .error (.clientError _) => .ok (false, fs)
  | .error (.otherError m) => .error (.otherError m)

/-- S3Wrapper.upload: reads the source file and stores its bytes under the
key, attaching the metadata mapping (ExtraArgs only when non-empty; an
empty mapping stores empty metadata either way); errors propagate. -/
def upload (fs : FS) (w : World) (file_path key : String)
    (metadata : List (String × String)) : Except SdkError World :=
  match fsLookup fs file_path with
  | none => .error (.otherError "upload source file missing")
  | some b => .ok { w with store := putObj w.store key b metadata }

/-- S3Wrapper.get_sha256: the hex SHA-256 of the full object body; any
exception from the get is caught and None returned. -/
def get_sha256 (w : World) (key : String) : Option String :=
  match getObjectBody w key with
  | .ok b => some (sha256hex b)
  | .error _ => none

/-- S3Wrapper.update_metadata: False when get_headers gives the sentinel
(the copy endpoint is not contacted); otherwise a self-copy with REPLACE
metadata, True on success and False when the copy raises. -/
def update_metadata (w : World) (key : String) (metadata : List (String × String)) :
    Bool × World :=
  match get_headers w key with
  | none => (false, w)
  | some _ =>
    match copyObject w key metadata with
    | (w2, none) => (true, w2)
    | (w2, some _) => (false, w2)

/-- The unconditional part of S3Wrapper.delete: if get_headers is truthy the
object is deleted, else only an error notice is printed. -/
def deleteCore (w : World) (key : String) : World :=
  match get_headers w key with
  | some _ => { w with store := removeKey w.store key }
  | none => w

/-- S3Wrapper.delete: when warning_msg is set an interactive prompt is
issued (its answer is read and discarded); then the object is deleted when
get_headers is truthy. -/
def delete (w : World) (key : String) (warning_msg : Bool) : World :=
  if warning_msg then deleteCore (askFree w).2 key else deleteCore w key

/-- S3Wrapper.delete_from_list: one Prompt.ask with choices yes/no and
default no for the whole batch; on yes each key is deleted via delete with
warning_msg suppressed, otherwise nothing happens. -/
def delete_from_list (w : World) (object_keys : List String) : World :=
  if (askChoice w "no").1 = "yes" then
    object_keys.foldl (fun acc k => delete acc k false) (askChoice w "no").2
  else (askChoice w "no").2

/-! ## Bucket listing and construction (buckets_list, _check_bucket_name) -/

/-- The raw list_buckets response: the Buckets key may be absent, and each
entry may lack its Name key. -/
structure BucketsResponse where
  buckets : Option (List (Option String))
deriving Repr, DecidableEq

/-- The message of the S3Exception raised when the listing response has an
unexpected shape. -/
def listingErrMsg : String :=
  "[red]|ERROR| Error while getting bucket list from AWS."

/-- The message of the S3Exception raised when the bucket is missing. -/
def bucketNotFoundMsg (bucket_name : String) : String :=
  "[red]|ERROR| Bucket [cyan]" ++ bucket_name ++ "[/] not found."

/-- The Name of each entry in listing order; none as soon as an entry lacks
its Name key (the KeyError of the comprehension). -/
def extract_names : List (Option String) → Option (List String)
  | [] => some []
  | some n :: rest => (extract_names rest).map (fun ns => n :: ns)
  | none :: _ => none

/-- S3Wrapper.buckets_list: the Name of each listed bucket; a KeyError
(absent Buckets key, or an entry without Name) is caught and S3Exception
raised with the listing error message. -/
def buckets_list (resp : BucketsResponse) : Except String (List String) :=
  match resp.buckets with
  | none => .error listingErrMsg
  | some l =>
    match extract_names l with
    | some names => .ok names
    | none => .error listingErrMsg

/-- S3Wrapper._check_bucket_name, as run by the constructor: the bucket name
when it occurs in buckets_list, S3Exception with the not-found message
otherwise; an S3Exception from buckets_list propagates. -/
def check_bucket_name (resp : BucketsResponse) (bucket_name : String) :
    Except String String :=
  match buckets_list resp with
  | .error m => .error m
  | .ok names => if bucket_name ∈ names then .ok bucket_name
                 else .error (bucketNotFoundMsg bucket_name)

/-! ## Credential loading (S3Auth._read_keys, both variants) -/

/-- A Python exception as the credential loaders can produce it: a
FileNotFoundError with its message, or the TypeError produced by raising a
value (None) that is not an exception. -/
inductive PyExc where
  | fileNotFound (msg : String)
  | typeErrorRaiseNone
deriving Repr, DecidableEq

/-- The credential directory contents: path to file text. -/
abbrev KeyFS : Type := List (String × String)

/-- os.path.isfile on the model filesystem. -/
def isFile (files : KeyFS) (path : String) : Bool :=
  match files with
  | [] => false
  | e :: rest => if e.1 = path then true else isFile rest path

/-- The text of a file (empty when absent; only read after an isfile check). -/
def fileRead (files : KeyFS) (path : String) : String :=
  match files with
  | [] => ""
  | e :: rest => if e.1 = path then e.2 else fileRead rest path

/-- Python str.strip(): leading and trailing whitespace removed. -/
def pstrip (s : String) : String :=
  String.mk (((s.data.dropWhile Char.isWhitespace).reverse.dropWhile Char.isWhitespace).reverse)

/-- os.path.join of a directory and a file name. -/
def pjoin (dir name : String) : String := dir ++ "/" ++ name

/-- s3wrapper/S3Auth._read_keys: when either of key_location/key and
key_location/private_key is absent, FileNotFoundError whose message names
the directory and both paths; otherwise both contents, stripped. -/
def read_keys (files : KeyFS) (key_location : String) :
    Except PyExc (String × String) :=
  let akp := pjoin key_location "key"
  let skp := pjoin key_location "private_key"
  if isFile files akp && isFile files skp then
    .ok (pstrip (fileRead files akp), pstrip (fileRead files skp))
  else
    .error (.fileNotFound
      ("[red]|ERROR| No key or private key found in " ++ key_location ++
       ". Please create files " ++ akp ++ " and " ++ skp ++ "."))

/-- S3Wrapper/S3Auth._read_keys (the older duplicated variant): on a missing
file it executes raise print(...); print returns None, and raising None is a
TypeError, so the construction fails with a TypeError carrying no paths. -/
def read_keys_old (files : KeyFS) (key_location : String) :
    Except PyExc (String × String) :=
  let akp := pjoin key_location "key"
  let skp := pjoin key_location "private_key"
  if !(isFile files akp) || !(isFile files skp) then
    .error .typeErrorRaiseNone
  else
    .ok (pstrip (fileRead files akp), pstrip (fileRead files skp))

/-! ## Helper lemmas -/

theorem findObj_removeKey_self (s : List S3Obj) (k : String) :
    findObj (removeKey s k) k = none := by
  induction s with
  | nil => rfl
  | cons o rest ih =>
    by_cases h : o.key = k
    · simpa [removeKey, h] using ih
    · simpa [removeKey, findObj, h] using ih

theorem findObj_removeKey_none (s : List S3Obj) (k k' : String)
    (h : findObj s k = none) : findObj (removeKey s k') k = none := by
  induction s with
  | nil => rfl
  | cons o rest ih =>
    by_cases h1 : o.key = k
    · simp [findObj, h1] at h
    · simp only [findObj, if_neg h1] at h
      by_cases h2 : o.key = k'
      · simpa [removeKey, h2] using ih h
      · simpa [removeKey, findObj, h1, h2] using ih h

theorem findObj_replaceMeta (s : List S3Obj) (k : String) (m : List (String × String)) :
    findObj (replaceMeta s k m) k = (findObj s k).map (fun o => { o with meta := m }) := by
  induction s with
  | nil => rfl
  | cons o rest ih =>
    by_cases h : o.key = k
    · simp [replaceMeta, findObj, h]
    · simpa [replaceMeta, findObj, h] using ih

theorem findObj_putObj (s : List S3Obj) (k : String) (b : List Nat)
    (m : List (String × String)) : findObj (putObj s k b m) k = some ⟨k, b, m, 0⟩ := by
  simp [putObj, findObj]

theorem findObj_eq_none_iff (s : List S3Obj) (k : String) :
    findObj s k = none ↔ k ∉ s.map (fun o => o.key) := by
  induction s with
  | nil => simp [findObj]
  | cons o rest ih =>
    by_cases h : o.key = k
    · simp [findObj, h]
    · rw [List.map_cons]
      simp only [findObj, if_neg h, List.mem_cons, not_or]
      rw [ih]
      constructor
      · intro hm
        exact ⟨fun he => h he.symm, hm⟩
      · intro hm
        exact hm.2

theorem get_headers_nofault (w : World) (k : String) (h : w.headFault = none) :
    get_headers w k =
      (findObj w.store k).map (fun o => Headers.mk o.body.length o.meta o.lastModified) := by
  unfold get_headers headObject
  rw [h]
  cases findObj w.store k <;> rfl

theorem get_headers_fault (w : World) (k : String) (e : SdkError)
    (h : w.headFault = some e) : get_headers w k = none := by
  unfold get_headers headObject
  rw [h]
  cases e <;> rfl

theorem get_headers_askFree (w : World) (k : String) :
    get_headers (askFree w).2 k = get_headers w k := rfl

theorem deleteCore_headFault (w : World) (k : String) :
    (deleteCore w k).headFault = w.headFault := by
  unfold deleteCore
  cases get_headers w k <;> rfl

theorem deleteCore_promptsAsked (w : World) (k : String) :
    (deleteCore w k).promptsAsked = w.promptsAsked := by
  unfold deleteCore
  cases get_headers w k <;> rfl

theorem deleteCore_store (w : World) (k : String) :
    (deleteCore w k).store =
      match get_headers w k with
      | some _ => removeKey w.store k
      | none => w.store := by
  unfold deleteCore
  cases get_headers w k <;> rfl

theorem delete_headFault (w : World) (k : String) (b : Bool) :
    (delete w k b).headFault = w.headFault := by
  cases b <;> simp [delete, deleteCore_headFault, askFree]

theorem delete_promptsAsked_false (w : World) (k : String) :
    (delete w k false).promptsAsked = w.promptsAsked := by
  simp [delete, deleteCore_promptsAsked]

theorem delete_promptsAsked_true (w : World) (k : String) :
    (delete w k true).promptsAsked = w.promptsAsked + 1 := by
  simp [delete, deleteCore_promptsAsked, askFree]

theorem findObj_deleteCore_self (w : World) (k : String)
    (h : w.headFault = none) : findObj (deleteCore w k).store k = none := by
  rw [deleteCore_store, get_headers_nofault w k h]
  cases hh : findObj w.store k
  · simpa using hh
  · simpa using findObj_removeKey_self w.store k

theorem findObj_delete_self (w : World) (k : String) (b : Bool)
    (h : w.headFault = none) : findObj (delete w k b).store k = none := by
  cases b
  · simpa [delete] using findObj_deleteCore_self w k h
  · simpa [delete] using findObj_deleteCore_self (askFree w).2 k (by simpa [askFree] using h)

theorem findObj_deleteCore_none (w : World) (k k' : String)
    (h : findObj w.store k = none) : findObj (deleteCore w k').store k = none := by
  rw [deleteCore_store]
  cases get_headers w k'
  · simpa using h
  · simpa using findObj_removeKey_none w.store k k' h

theorem findObj_delete_none (w : World) (k k' : String) (b : Bool)
    (h : findObj w.store k = none) : findObj (delete w k' b).store k = none := by
  cases b
  · simpa [delete] using findObj_deleteCore_none w k k' h
  · simpa [delete] using findObj_deleteCore_none (askFree w).2 k k' (by simpa [askFree] using h)

theorem foldDelete_promptsAsked (keys : List String) (w : World) :
    (keys.foldl (fun acc k => delete acc k false) w).promptsAsked = w.promptsAsked := by
  induction keys generalizing w with
  | nil => rfl
  | cons k rest ih => simpa [delete_promptsAsked_false] using ih (delete w k false)

theorem foldDelete_headFault (keys : List String) (w : World) :
    (keys.foldl (fun acc k => delete acc k false) w).headFault = w.headFault := by
  induction keys generalizing w with
  | nil => rfl
  | cons k rest ih => simpa [delete_headFault] using ih (delete w k false)

theorem foldDelete_none (keys : List String) (w : World) (k : String)
    (h : findObj w.store k = none) :
    findObj ((keys.foldl (fun acc k => delete acc k false) w)).store k = none := by
  induction keys generalizing w with
  | nil => simpa using h
  | cons k' rest ih =>
    simpa using ih (delete w k' false) (findObj_delete_none w k k' false h)

theorem foldDelete_absent (keys : List String) (w : World) (k : String)
    (hf : w.headFault = none) (hk : k ∈ keys) :
    findObj ((keys.foldl (fun acc k => delete acc k false) w)).store k = none := by
  induction keys generalizing w with
  | nil => cases hk
  | cons k' rest ih =>
    rcases List.mem_cons.mp hk with h1 | h2
    · subst h1
      simpa using foldDelete_none rest (delete w k false) k (findObj_delete_self w k false hf)
    · simpa using ih (delete w k' false) (by rw [delete_headFault, hf]) h2

theorem extract_names_of_mem_none (l : List (Option String)) (h : none ∈ l) :
    extract_names l = none := by
  induction l with
  | nil => cases h
  | cons o rest ih =>
    cases o with
    | none => rfl
    | some n =>
      rcases List.mem_cons.mp h with h1 | h2
      · cases h1
      · simp [extract_names, ih h2]

/-- The hash model reproduces the FIPS 180-4 test vector for the empty
message. -/
theorem sha256hex_empty_vector :
    sha256hex [] =
      "e3b0c44298fc1c149afbf4c8996fb92427ae41e4649b934ca495991b7852b855" := by decide

/-- The hash model reproduces the FIPS 180-4 test vector for the message
abc (bytes 97 98 99). -/
theorem sha256hex_abc_vector :
    sha256hex [97, 98, 99] =
      "ba7816bf8f01cfea414140de5dae2223b00361a396177a9cb410ff61f20015ad" := by decide

/-! ## Claim theorems -/

/-- Claim C5: for every object key, get_headers returns the header mapping
when head_object succeeds, the False sentinel (never a raised error) when a
ClientError such as not-found is raised, and the same False sentinel for any
other exception raised by the head query. -/
theorem C5_get_headers_sentinel : ∀ (w : World) (k : String),
    (∃ h, headObject w k = .ok h ∧ get_headers w k = some h) ∨
    ((∃ c, headObject w k = .error (.clientError c)) ∧ get_headers w k = none) ∨
    ((∃ m, headObject w k = .error (.otherError m)) ∧ get_headers w k = none) := by
  intro w k
  rcases hh : headObject w k with e | h
  · cases e with
    | clientError c =>
      exact Or.inr (Or.inl ⟨⟨c, rfl⟩, by simp [get_headers, hh]⟩)
    | otherError m =>
      exact Or.inr (Or.inr ⟨⟨m, rfl⟩, by simp [get_headers, hh]⟩)
  · exact Or.inl ⟨h, rfl, by simp [get_headers, hh]⟩

/-- Witness for C5 at a concrete world whose head endpoint raises a
non-ClientError exception: the result is still the False sentinel. -/
theorem C5_witness :
    (∃ h, headObject ⟨[], some (.otherError "timeout"), none, none, none, [], 0, 0⟩ "k" = .ok h ∧
      get_headers ⟨[], some (.otherError "timeout"), none, none, none, [], 0, 0⟩ "k" = some h) ∨
    ((∃ c, headObject ⟨[], some (.otherError "timeout"), none, none, none, [], 0, 0⟩ "k" =
        .error (.clientError c)) ∧
      get_headers ⟨[], some (.otherError "timeout"), none, none, none, [], 0, 0⟩ "k" = none) ∨
    ((∃ m, headObject ⟨[], some (.otherError "timeout"), none, none, none, [], 0, 0⟩ "k" =
        .error (.otherError m)) ∧
      get_headers ⟨[], some (.otherError "timeout"), none, none, none, [], 0, 0⟩ "k" = none) :=
  C5_get_headers_sentinel ⟨[], some (.otherError "timeout"), none, none, none, [], 0, 0⟩ "k"

/-- Claim C8: list_files is the subsequence of the object listing whose keys
do not end in a slash; with a prefix it keeps exactly the non-marker keys
starting with the prefix, with no prefix all non-marker keys, in listing
order. -/
theorem C8_get_files_filter :
    (∀ (w : World) (d k : String),
      k ∈ get_files w (some d) ↔
        k ∈ get_objects w ∧ k.startsWith d = true ∧ k.endsWith "/" = false) ∧
    (∀ (w : World) (k : String),
      k ∈ get_files w none ↔ k ∈ get_objects w ∧ k.endsWith "/" = false) ∧
    (∀ (w : World) (d : Option String), (get_files w d).Sublist (get_objects w)) := by
  refine ⟨?_, ?_, ?_⟩
  · intro w d k
    simp [get_files, List.mem_filter]
  · intro w k
    simp [get_files, List.mem_filter]
  · intro w d
    cases d <;> exact List.filter_sublist _

/-- Witness for C8 at a concrete listing holding a marker key, a prefixed
file and an unrelated file. -/
theorem C8_witness :
    ("dir/f" ∈ get_files
        ⟨[⟨"dir/", [], [], 0⟩, ⟨"dir/f", [1], [], 0⟩, ⟨"g", [2], [], 0⟩],
          none, none, none, none, [], 0, 0⟩ (some "dir/") ↔
      ("dir/f" ∈ get_objects
        ⟨[⟨"dir/", [], [], 0⟩, ⟨"dir/f", [1], [], 0⟩, ⟨"g", [2], [], 0⟩],
          none, none, none, none, [], 0, 0⟩ ∧
       "dir/f".startsWith "dir/" = true ∧ "dir/f".endsWith "/" = false)) :=
  C8_get_files_filter.1
    ⟨[⟨"dir/", [], [], 0⟩, ⟨"dir/f", [1], [], 0⟩, ⟨"g", [2], [], 0⟩],
      none, none, none, none, [], 0, 0⟩ "dir/" "dir/f"

/-- Claim C10: get_size is 0 exactly when get_headers returned the False
sentinel (object absent or head failed) or the object has content length 0;
two sentinel worlds and a zero-length world are therefore indistinguishable
through get_size. -/
theorem C10_get_size_zero :
    (∀ (w : World) (k : String),
      get_size w k = 0 ↔
        (get_headers w k = none ∨ ∃ h, get_headers w k = some h ∧ h.contentLength = 0)) ∧
    (∀ (w1 w2 w3 : World) (k : String),
      get_headers w1 k = none → get_headers w2 k = none →
      (∃ h, get_headers w3 k = some h ∧ h.contentLength = 0) →
      get_size w1 k = get_size w2 k ∧ get_size w2 k = get_size w3 k) := by
  constructor
  · intro w k
    rcases hh : get_headers w k with _ | h
    · simp [get_size, hh]
    · simp [get_size, hh]
  · intro w1 w2 w3 k h1 h2 h3
    rcases h3 with ⟨h, hh, hz⟩
    simp [get_size, h1, h2, hh, hz]

/-- Witness for C10 at concrete worlds: a head fault, an absent key and a
stored zero-length object all give get_size 0. -/
theorem C10_witness :
    get_size ⟨[], some (.otherError "boom"), none, none, none, [], 0, 0⟩ "k" =
      get_size ⟨[], none, none, none, none, [], 0, 0⟩ "k" ∧
    get_size ⟨[], none, none, none, none, [], 0, 0⟩ "k" =
      get_size ⟨[⟨"k", [], [], 7⟩], none, none, none, none, [], 0, 0⟩ "k" :=
  C10_get_size_zero.2
    ⟨[], some (.otherError "boom"), none, none, none, [], 0, 0⟩
    ⟨[], none, none, none, none, [], 0, 0⟩
    ⟨[⟨"k", [], [], 7⟩], none, none, none, none, [], 0, 0⟩
    "k" (by decide) (by decide) ⟨⟨0, [], 7⟩, by decide, rfl⟩

/-- Claim C3 counterexample: a ClientError that is not a not-found (the key
is present; the service answers AccessDenied) is not propagated — download
still returns the False result, because the except clause catches every
ClientError, not only not-found. -/
theorem C3_counterexample :
    download ⟨[⟨"k", [1], [], 0⟩], none, none,
        some (SdkError.clientError "AccessDenied"), none, [], 0, 0⟩
      "k" [] "dest" = .ok (false, []) := rfl

/-- Claim C3 amended: download returns false and leaves the destination
untouched when the key is absent, and likewise returns false for any other
ClientError raised by the transfer; only exceptions that are not ClientError
propagate to the caller. -/
theorem C3_download_amended :
    (∀ (w : World) (key : String) (fs : FS) (path : String),
      w.downloadFault = none → findObj w.store key = none →
      download w key fs path = .ok (false, fs)) ∧
    (∀ (w : World) (key : String) (fs : FS) (path c : String),
      w.downloadFault = some (.clientError c) →
      download w key fs path = .ok (false, fs)) ∧
    (∀ (w : World) (key : String) (fs : FS) (path m : String),
      w.downloadFault = some (.otherError m) →
      download w key fs path = .error (.otherError m)) := by
  refine ⟨?_, ?_, ?_⟩
  · intro w key fs path hf hk
    simp [download, downloadFile, hf, hk]
  · intro w key fs path c hf
    simp [download, downloadFile, hf]
  · intro w key fs path m hf
    simp [download, downloadFile, hf]

/-- Witness for the amended C3 at concrete inputs: an absent key gives a
false result with the filesystem unchanged, and a non-ClientError fault
propagates. -/
theorem C3_witness :
    download ⟨[], none, none, none, none, [], 0, 0⟩ "k" [("f", [7])] "dest" =
      .ok (false, [("f", [7])]) ∧
    download ⟨[], none, none, some (.otherError "conn reset"), none, [], 0, 0⟩
        "k" [] "dest" = .error (.otherError "conn reset") :=
  ⟨C3_download_amended.1 ⟨[], none, none, none, none, [], 0, 0⟩ "k"
      [("f", [7])] "dest" rfl rfl,
   C3_download_amended.2.2 ⟨[], none, none, some (.otherError "conn reset"), none, [], 0, 0⟩
      "k" [] "dest" "conn reset" rfl⟩

/-- The bucket-not-found message never coincides with the malformed-listing
message, whatever the bucket name: they differ at character 13. -/
theorem bucketNotFoundMsg_ne_listingErrMsg (name : String) :
    bucketNotFoundMsg name ≠ listingErrMsg := by
  intro h
  have h5 : (bucketNotFoundMsg name).data[13]? = some 'B' := rfl
  have h6 : listingErrMsg.data[13]? = some 'E' := rfl
  rw [h, h6] at h5
  exact absurd h5 (by decide)

/-- Claim C4: construction rejects a malformed bucket-listing response (a
missing Buckets key, or an entry without its Name) with the listing
S3Exception, rejects every bucket name absent from a well-formed listing
with the bucket-not-found S3Exception, and the two failure messages are
distinct for every bucket name. -/
theorem C4_check_bucket :
    (∀ name : String, check_bucket_name ⟨none⟩ name = .error listingErrMsg) ∧
    (∀ (name : String) (l : List (Option String)), none ∈ l →
      check_bucket_name ⟨some l⟩ name = .error listingErrMsg) ∧
    (∀ (name : String) (l : List (Option String)) (names : List String),
      extract_names l = some names → name ∉ names →
      check_bucket_name ⟨some l⟩ name = .error (bucketNotFoundMsg name)) ∧
    (∀ name : String, bucketNotFoundMsg name ≠ listingErrMsg) := by
  refine ⟨?_, ?_, ?_, bucketNotFoundMsg_ne_listingErrMsg⟩
  · intro name
    rfl
  · intro name l hl
    simp [check_bucket_name, buckets_list, extract_names_of_mem_none l hl]
  · intro name l names he hn
    simp [check_bucket_name, buckets_list, he, hn]

/-- Witness for C4 at concrete inputs: a listing without the Buckets key, a
listing whose entry lacks Name, and a well-formed listing not containing
the requested bucket. -/
theorem C4_witness :
    check_bucket_name ⟨none⟩ "b" = .error listingErrMsg ∧
    check_bucket_name ⟨some [some "a", none]⟩ "b" = .error listingErrMsg ∧
    check_bucket_name ⟨some [some "a", some "c"]⟩ "b" = .error (bucketNotFoundMsg "b") ∧
    bucketNotFoundMsg "b" ≠ listingErrMsg :=
  ⟨C4_check_bucket.1 "b",
   C4_check_bucket.2.1 "b" [some "a", none] (by decide),
   C4_check_bucket.2.2.1 "b" [some "a", some "c"] ["a", "c"] (by decide) (by decide),
   C4_check_bucket.2.2.2 "b"⟩

/-- Claim C2 (code slip in the older variant): with no credential files
present, the newer variant raises FileNotFoundError whose message names the
directory and both expected paths, while the older duplicated variant
executes raise print(...), i.e. raises None, producing a TypeError that
carries no paths at all. -/
theorem C2_read_keys_variants :
    read_keys [] "/root/.s3" = .error (.fileNotFound
      ("[red]|ERROR| No key or private key found in /root/.s3. " ++
       "Please create files /root/.s3/key and /root/.s3/private_key.")) ∧
    read_keys_old [] "/root/.s3" = .error .typeErrorRaiseNone ∧
    read_keys_old [("/root/.s3/key", "AKIA\n")] "/root/.s3" =
      .error .typeErrorRaiseNone :=
  ⟨rfl, rfl, rfl⟩

/-- Claim C7: update_metadata on an absent key (sentinel from get_headers)
returns false with the world unchanged, so the copy endpoint is not
contacted; on a present key the self-copy with REPLACE semantics succeeds
and a subsequent get_metadata returns exactly the new mapping; a failing
copy yields false. -/
theorem C7_update_metadata :
    (∀ (w : World) (k : String) (m : List (String × String)),
      get_headers w k = none → update_metadata w k m = (false, w)) ∧
    (∀ (w : World) (k : String) (m : List (String × String)) (o : S3Obj),
      w.headFault = none → findObj w.store k = some o → w.copyFault = none →
      (update_metadata w k m).1 = true ∧
      get_metadata (update_metadata w k m).2 k = some m) ∧
    (∀ (w : World) (k : String) (m : List (String × String)) (e : SdkError),
      get_headers w k ≠ none → w.copyFault = some e →
      (update_metadata w k m).1 = false) := by
  refine ⟨?_, ?_, ?_⟩
  · intro w k m hg
    simp [update_metadata, hg]
  · intro w k m o hf hobj hcf
    have hh : get_headers w k = some ⟨o.body.length, o.meta, o.lastModified⟩ := by
      rw [get_headers_nofault w k hf, hobj]
      rfl
    have hw2 : update_metadata w k m =
        (true, { w with copyCalls := w.copyCalls + 1, store := replaceMeta w.store k m }) := by
      simp [update_metadata, hh, copyObject, hcf]
    rw [hw2]
    refine ⟨rfl, ?_⟩
    unfold get_metadata
    rw [get_headers_nofault _ k (by simpa using hf)]
    have hst : ({ w with copyCalls := w.copyCalls + 1, store := replaceMeta w.store k m } : World).store = replaceMeta w.store k m := rfl
    rw [hst, findObj_replaceMeta, hobj]
    rfl
  · intro w k m e hg hcf
    rcases hh : get_headers w k with _ | h
    · exact absurd hh hg
    · simp [update_metadata, hh, copyObject, hcf]

/-- Witness for C7 at concrete inputs: an absent key gives false with the
world unchanged; a present key gets its metadata replaced wholesale (the
old mapping is gone); a copy fault gives false. -/
theorem C7_witness :
    update_metadata ⟨[], none, none, none, none, [], 0, 0⟩ "k" [("b", "2")] =
      (false, ⟨[], none, none, none, none, [], 0, 0⟩) ∧
    (update_metadata ⟨[⟨"k", [1], [("a", "1")], 5⟩], none, none, none, none, [], 0, 0⟩
        "k" [("b", "2")]).1 = true ∧
    get_metadata (update_metadata
        ⟨[⟨"k", [1], [("a", "1")], 5⟩], none, none, none, none, [], 0, 0⟩
        "k" [("b", "2")]).2 "k" = some [("b", "2")] ∧
    (update_metadata ⟨[⟨"k", [1], [("a", "1")], 5⟩], none, none, none,
        some (.otherError "copy failed"), [], 0, 0⟩ "k" [("b", "2")]).1 = false := by
  refine ⟨C7_update_metadata.1 ⟨[], none, none, none, none, [], 0, 0⟩ "k" [("b", "2")] rfl,
    ?_, ?_,
    C7_update_metadata.2.2 ⟨[⟨"k", [1], [("a", "1")], 5⟩], none, none, none,
      some (.otherError "copy failed"), [], 0, 0⟩ "k" [("b", "2")]
      (.otherError "copy failed") (by intro h; cases h) rfl⟩
  · exact (C7_update_metadata.2.1 ⟨[⟨"k", [1], [("a", "1")], 5⟩], none, none, none, none, [], 0, 0⟩
      "k" [("b", "2")] ⟨"k", [1], [("a", "1")], 5⟩ rfl rfl rfl).1
  · exact (C7_update_metadata.2.1 ⟨[⟨"k", [1], [("a", "1")], 5⟩], none, none, none, none, [], 0, 0⟩
      "k" [("b", "2")] ⟨"k", [1], [("a", "1")], 5⟩ rfl rfl rfl).2

/-- Claim C1 counterexample: the operator answers the confirmation prompt
with no, yet delete still issues the remote delete — the prompt answer is
read and discarded, so remote state is mutated after a declined
confirmation. -/
theorem C1_counterexample :
    (delete ⟨[⟨"k", [1], [], 0⟩], none, none, none, none, ["no"], 0, 0⟩
        "k" true).promptsAsked = 1 ∧
    findObj (delete ⟨[⟨"k", [1], [], 0⟩], none, none, none, none, ["no"], 0, 0⟩
        "k" true).store "k" = none := ⟨rfl, rfl⟩

/-- Claim C1 amended: when the confirmation flag is set, delete blocks on
exactly one interactive prompt before the remote call (and asks none when
the flag is clear), but the answer is ignored: the resulting bucket contents
are independent of the operator input, and any present object is deleted
whatever the answer. -/
theorem C1_delete_amended :
    (∀ (w : World) (k : String), (delete w k true).promptsAsked = w.promptsAsked + 1) ∧
    (∀ (w : World) (k : String), (delete w k false).promptsAsked = w.promptsAsked) ∧
    (∀ (w : World) (k : String) (b : Bool) (i1 i2 : List String),
      (delete { w with promptInputs := i1 } k b).store =
        (delete { w with promptInputs := i2 } k b).store) ∧
    (∀ (w : World) (k : String), w.headFault = none →
      findObj (delete w k true).store k = none) := by
  refine ⟨delete_promptsAsked_true, delete_promptsAsked_false, ?_,
    fun w k h => findObj_delete_self w k true h⟩
  intro w k b i1 i2
  cases b
  · rw [show delete { w with promptInputs := i1 } k false =
        deleteCore { w with promptInputs := i1 } k from rfl,
      show delete { w with promptInputs := i2 } k false =
        deleteCore { w with promptInputs := i2 } k from rfl,
      deleteCore_store, deleteCore_store]
    rcases hg : get_headers w k with _ | h
    · have hg1 : get_headers { w with promptInputs := i1 } k = none := hg
      have hg2 : get_headers { w with promptInputs := i2 } k = none := hg
      rw [hg1, hg2]
    · have hg1 : get_headers { w with promptInputs := i1 } k = some h := hg
      have hg2 : get_headers { w with promptInputs := i2 } k = some h := hg
      rw [hg1, hg2]
  · rw [show delete { w with promptInputs := i1 } k true =
        deleteCore (askFree { w with promptInputs := i1 }).2 k from rfl,
      show delete { w with promptInputs := i2 } k true =
        deleteCore (askFree { w with promptInputs := i2 }).2 k from rfl,
      deleteCore_store, deleteCore_store]
    rcases hg : get_headers w k with _ | h
    · have hg1 : get_headers (askFree { w with promptInputs := i1 }).2 k = none := hg
      have hg2 : get_headers (askFree { w with promptInputs := i2 }).2 k = none := hg
      rw [hg1, hg2]
      rfl
    · have hg1 : get_headers (askFree { w with promptInputs := i1 }).2 k = some h := hg
      have hg2 : get_headers (askFree { w with promptInputs := i2 }).2 k = some h := hg
      rw [hg1, hg2]
      rfl

/-- Witness for the amended C1 at a concrete world: with the answer no
queued, the flagged delete asks one prompt and the object is gone, and the
store outcome equals the one with yes queued. -/
theorem C1_witness :
    (delete ⟨[⟨"k", [1], [], 0⟩], none, none, none, none, ["no"], 0, 0⟩
        "k" true).promptsAsked = 1 ∧
    findObj (delete ⟨[⟨"k", [2], [], 0⟩], none, none, none, none, ["no"], 0, 0⟩
        "k" true).store "k" = none ∧
    (delete ⟨[⟨"k", [2], [], 0⟩], none, none, none, none, ["no"], 0, 0⟩ "k" true).store =
      (delete ⟨[⟨"k", [2], [], 0⟩], none, none, none, none, ["yes"], 0, 0⟩ "k" true).store :=
  ⟨C1_delete_amended.1 ⟨[⟨"k", [1], [], 0⟩], none, none, none, none, ["no"], 0, 0⟩ "k",
   C1_delete_amended.2.2.2 ⟨[⟨"k", [2], [], 0⟩], none, none, none, none, ["no"], 0, 0⟩ "k" rfl,
   C1_delete_amended.2.2.1 ⟨[⟨"k", [2], [], 0⟩], none, none, none, none, [], 0, 0⟩
     "k" true ["no"] ["yes"]⟩

/-- Claim C6: delete_from_list asks exactly one interactive confirmation for
the whole batch; a declined (or blank, defaulting to no) answer performs
zero deletions, and an accepted one deletes every listed key with the
per-item prompt suppressed, so each listed key is absent from a subsequent
object listing. -/
theorem C6_delete_from_list :
    (∀ (w : World) (keys : List String),
      (delete_from_list w keys).promptsAsked = w.promptsAsked + 1) ∧
    (∀ (w : World) (keys : List String),
      (askChoice w "no").1 ≠ "yes" → (delete_from_list w keys).store = w.store) ∧
    (∀ (w : World) (keys : List String) (k : String),
      w.headFault = none → (askChoice w "no").1 = "yes" → k ∈ keys →
      k ∉ get_objects (delete_from_list w keys)) := by
  refine ⟨?_, ?_, ?_⟩
  · intro w keys
    by_cases h : (askChoice w "no").1 = "yes"
    · rw [delete_from_list, if_pos h, foldDelete_promptsAsked]
      rfl
    · rw [delete_from_list, if_neg h]
      rfl
  · intro w keys h
    rw [delete_from_list, if_neg h]
    rfl
  · intro w keys k hf hy hk
    rw [delete_from_list, if_pos hy]
    have hf2 : (askChoice w "no").2.headFault = none := hf
    have := foldDelete_absent keys (askChoice w "no").2 k hf2 hk
    rw [findObj_eq_none_iff] at this
    exact this

/-- Witness for C6 at concrete inputs: with yes queued both listed keys are
absent afterwards; with no queued the store is unchanged; one prompt is
asked in each case. -/
theorem C6_witness :
    "a" ∉ get_objects (delete_from_list
      ⟨[⟨"a", [1], [], 0⟩, ⟨"b", [2], [], 0⟩], none, none, none, none, ["yes"], 0, 0⟩
      ["a", "b"]) ∧
    "b" ∉ get_objects (delete_from_list
      ⟨[⟨"a", [1], [], 0⟩, ⟨"b", [2], [], 0⟩], none, none, none, none, ["yes"], 0, 0⟩
      ["a", "b"]) ∧
    (delete_from_list
      ⟨[⟨"a", [1], [], 0⟩, ⟨"b", [2], [], 0⟩], none, none, none, none, ["no"], 0, 0⟩
      ["a", "b"]).store = [⟨"a", [1], [], 0⟩, ⟨"b", [2], [], 0⟩] ∧
    (delete_from_list
      ⟨[⟨"a", [1], [], 0⟩, ⟨"b", [2], [], 0⟩], none, none, none, none, ["yes"], 0, 0⟩
      ["a", "b"]).promptsAsked = 1 :=
  ⟨C6_delete_from_list.2.2
      ⟨[⟨"a", [1], [], 0⟩, ⟨"b", [2], [], 0⟩], none, none, none, none, ["yes"], 0, 0⟩
      ["a", "b"] "a" rfl rfl (by decide),
   C6_delete_from_list.2.2
      ⟨[⟨"a", [1], [], 0⟩, ⟨"b", [2], [], 0⟩], none, none, none, none, ["yes"], 0, 0⟩
      ["a", "b"] "b" rfl rfl (by decide),
   C6_delete_from_list.2.1
      ⟨[⟨"a", [1], [], 0⟩, ⟨"b", [2], [], 0⟩], none, none, none, none, ["no"], 0, 0⟩
      ["a", "b"] (by decide),
   C6_delete_from_list.1
      ⟨[⟨"a", [1], [], 0⟩, ⟨"b", [2], [], 0⟩], none, none, none, none, ["yes"], 0, 0⟩
      ["a", "b"]⟩

/-- Claim C9: uploading a file whose bytes are b under a key and then
computing get_sha256 of that key yields exactly the hex-encoded SHA-256
digest of b; and get_sha256 returns None instead of raising whenever the
object get fails for any reason. -/
theorem C9_upload_sha256 :
    (∀ (fs : FS) (w : World) (path key : String) (b : List Nat)
        (md : List (String × String)) (w2 : World),
      fsLookup fs path = some b → w.getFault = none →
      upload fs w path key md = .ok w2 →
      get_sha256 w2 key = some (sha256hex b)) ∧
    (∀ (w : World) (key : String) (e : SdkError),
      getObjectBody w key = .error e → get_sha256 w key = none) := by
  constructor
  · intro fs w path key b md w2 hlk hg hup
    rw [upload, hlk] at hup
    cases hup
    simp [get_sha256, getObjectBody, hg, findObj_putObj]
  · intro w key e he
    simp [get_sha256, he]

/-- Witness for C9 at concrete inputs: the bytes 104 105 uploaded under a
key hash to their SHA-256 hex digest, and a get on an empty bucket yields
None. -/
theorem C9_witness :
    get_sha256 ⟨[⟨"k", [104, 105], [], 0⟩], none, none, none, none, [], 0, 0⟩ "k" =
      some (sha256hex [104, 105]) ∧
    get_sha256 ⟨[], none, none, none, none, [], 0, 0⟩ "k" = none :=
  ⟨C9_upload_sha256.1 [("f", [104, 105])] ⟨[], none, none, none, none, [], 0, 0⟩
      "f" "k" [104, 105] [] ⟨[⟨"k", [104, 105], [], 0⟩], none, none, none, none, [], 0, 0⟩
      rfl rfl rfl,
   C9_upload_sha256.2 ⟨[], none, none, none, none, [], 0, 0⟩ "k"
      (.clientError "NoSuchKey") rfl⟩

end S3V
